import Mathlib

/-!
Verification of the LoveConnect backend matching engine against its
specification.  The definitions below are a shallow embedding of the code in
`src/models/User.js` (mongoose model `User`): the pure methods
`isGenderCompatibleWith`, `distanceTo`, `getPublicProfile`, the `age` virtual,
and the static query builder `findCompatibleUsers`.  JavaScript `Number`
coordinates are modelled as rationals (cast to reals inside the haversine
computation), dates at millisecond/day granularity as integers, and the MongoDB
storage collaborator as an explicit list of user documents together with an
abstract geospatial predicate (the `$near` operator belongs to the external
store, so theorems quantify over it).
-/

namespace LoveConnect

/-- `genderIdentity` subdocument of the user schema (src/models/User.js:55-88):
`myGender` is one enumeration tag, `interestedIn` an array of tags
(possibly containing the wildcard `"tous"`). -/
structure GenderIdentity where
  myGender : String
  interestedIn : List String
deriving DecidableEq

/-- `preferences` subdocument relevant to matching
(src/models/User.js:160-176): `searchRadius` in meters, `ageRange.min/max`. -/
structure Preferences where
  searchRadius : Nat
  ageRangeMin : Nat
  ageRangeMax : Nat
deriving DecidableEq

/-- The fields of the mongoose `User` document that the matching engine reads.
`location` holds the GeoJSON `coordinates` pair `[longitude, latitude]`; `none`
models absent/null coordinate data (the guard in `distanceTo`,
src/models/User.js:285).  `dateOfBirth` is a calendar day number (proleptic
Gregorian, day 0 = 1970-01-01, i.e. the stored `Date` at UTC midnight);
`lastSeen` is an arbitrary timestamp used only for ordering. -/
structure User where
  id : Nat
  dateOfBirth : Int
  genderIdentity : GenderIdentity
  location : Option (Rat × Rat)
  currentMood : String
  isActive : Bool
  isBanned : Bool
  preferences : Preferences
  lastSeen : Int
deriving DecidableEq

/-- The optional `options` bundle of `findCompatibleUsers`
(src/models/User.js:330-337); `none` models an omitted (undefined) field, and
`mood = none` models the `null` default. -/
structure FindOptions where
  maxDistance : Option Nat
  ageMin : Option Nat
  ageMax : Option Nat
  mood : Option String
  limit : Option Nat
deriving DecidableEq

/-- JavaScript `n || d` on numbers: `0` is falsy, so the default `d` is used
(src/models/User.js:332-334 write `user.preferences.searchRadius || 10000`
and similar). -/
def jsOr (n d : Nat) : Nat :=
  if n = 0 then d else n

/-- Day number of the proleptic Gregorian date built by the JavaScript
expression `new Date(y, month0, day)` (0-based month, as returned by
`getMonth()`), with day 0 = 1970-01-01.  This is the standard civil-from-date
conversion; `Int.fdiv` is floor division. -/
def daysFromCivil (y : Int) (month0 : Nat) (day : Nat) : Int :=
  let m : Int := (month0 : Int) + 1
  let yAdj : Int := if m ≤ 2 then y - 1 else y
  let era : Int := Int.fdiv yAdj 400
  let yoe : Int := yAdj - era * 400
  let mp : Int := Int.emod (m + 9) 12
  let doy : Int := Int.fdiv (153 * mp + 2) 5 + (day : Int) - 1
  let doe : Int := yoe * 365 + Int.fdiv yoe 4 - Int.fdiv yoe 100 + doy
  era * 146097 + doe - 719468

/-- The calendar date produced by `new Date()` at query time: year,
0-based month (`getMonth()`), day of month (`getDate()`). -/
structure Ymd where
  year : Int
  month : Nat
  day : Nat
deriving DecidableEq

/-- `date.getTime()` in milliseconds for a `Date` stored at UTC midnight of
the given day number. -/
def dateGetTime (day : Int) : Int :=
  day * 86400000

/-- The `age` virtual (src/models/User.js:216-219):
`Math.floor((Date.now() - dateOfBirth.getTime()) / (365.25*24*60*60*1000))`.
`365.25 * 24 * 60 * 60 * 1000 = 31557600000` ms; `Math.floor` of the real
quotient of two integers is floor division. -/
def userAge (u : User) (nowMs : Int) : Int :=
  Int.fdiv (nowMs - dateGetTime u.dateOfBirth) 31557600000

/-- `userSchema.methods.isGenderCompatibleWith` (src/models/User.js:270-281):
both directions must hold, each direction being membership of the other's
declared gender in the interest list or the `"tous"` wildcard. -/
def User.isGenderCompatibleWith (self other : User) : Bool :=
  let myInterestedIn := self.genderIdentity.interestedIn
  let otherInterestedIn := other.genderIdentity.interestedIn
  let iAmInterestedInThem :=
    myInterestedIn.contains other.genderIdentity.myGender ||
      myInterestedIn.contains "tous"
  let theyAreInterestedInMe :=
    otherInterestedIn.contains self.genderIdentity.myGender ||
      otherInterestedIn.contains "tous"
  iAmInterestedInThem && theyAreInterestedInMe

/-- The MongoDB query object built by `findCompatibleUsers`
(src/models/User.js:339-364): `_id: {$ne: idNe}`, `isActive: true`,
`isBanned: false`, a `$near` clause (center and max distance handed to the
storage collaborator), the `dateOfBirth` range `[$gte dobGte, $lte dobLte]`,
and the optional `moodSystem.currentMood` equality. -/
structure Query where
  idNe : Nat
  dobGte : Int
  dobLte : Int
  nearCenter : Option (Rat × Rat)
  nearMaxDistance : Nat
  mood : Option String

/-- `options.maxDistance` defaulted by `user.preferences.searchRadius || 10000`
(src/models/User.js:332). -/
def resolveMaxDistance (user : User) (opts : FindOptions) : Nat :=
  opts.maxDistance.getD (jsOr user.preferences.searchRadius 10000)

/-- `options.ageMin` defaulted by `user.preferences.ageRange.min || 18`
(src/models/User.js:333). -/
def resolveAgeMin (user : User) (opts : FindOptions) : Nat :=
  opts.ageMin.getD (jsOr user.preferences.ageRangeMin 18)

/-- `options.ageMax` defaulted by `user.preferences.ageRange.max || 35`
(src/models/User.js:334). -/
def resolveAgeMax (user : User) (opts : FindOptions) : Nat :=
  opts.ageMax.getD (jsOr user.preferences.ageRangeMax 35)

/-- `options.limit` defaulted to 50 (src/models/User.js:336). -/
def resolveLimit (opts : FindOptions) : Nat :=
  opts.limit.getD 50

/-- The query constructed at src/models/User.js:339-364.  The birth-date
window translates `new Date(now.getFullYear() - ageMin, now.getMonth(),
now.getDate())` (upper bound, `$lte`) and the same with `ageMax` (lower
bound, `$gte`). -/
def buildQuery (user : User) (opts : FindOptions) (now : Ymd) : Query :=
  ⟨user.id,
   daysFromCivil (now.year - (resolveAgeMax user opts : Int)) now.month now.day,
   daysFromCivil (now.year - (resolveAgeMin user opts : Int)) now.month now.day,
   user.location,
   resolveMaxDistance user opts,
   opts.mood⟩

/-- One document matches the query: conjunction of all query predicates,
with the geospatial `$near` predicate supplied by the storage collaborator
`near` (center, candidate location, max distance). -/
def matchesQuery (near : Option (Rat × Rat) → Option (Rat × Rat) → Nat → Bool)
    (q : Query) (c : User) : Bool :=
  (c.id != q.idNe) && c.isActive && (!c.isBanned) &&
    near q.nearCenter c.location q.nearMaxDistance &&
    decide (q.dobGte ≤ c.dateOfBirth) && decide (c.dateOfBirth ≤ q.dobLte) &&
    (match q.mood with
     | none => true
     | some m => c.currentMood == m)

/-- `.sort({ lastSeen: -1 })`: most recently active first. -/
def byLastSeenDesc (a b : User) : Prop :=
  b.lastSeen ≤ a.lastSeen

instance : DecidableRel byLastSeenDesc :=
  fun a b => inferInstanceAs (Decidable (b.lastSeen ≤ a.lastSeen))

/-- `userSchema.statics.findCompatibleUsers` (src/models/User.js:330-370):
filter the store by the compound query, sort by `lastSeen` descending, cap at
`limit` (the MongoDB server applies the sort before the limit).  The
`.select(...)` projection only strips credential fields from the returned
documents and is not part of the candidate-set logic, so it is omitted here.
Note that no gender-compatibility predicate appears anywhere in this
function. -/
def findCompatibleUsers
    (near : Option (Rat × Rat) → Option (Rat × Rat) → Nat → Bool)
    (user : User) (opts : FindOptions) (store : List User) (now : Ymd) :
    List User :=
  (List.insertionSort byLastSeenDesc
      (store.filter (matchesQuery near (buildQuery user opts now)))).take
    (resolveLimit opts)

/-- A storage collaborator admitting every pair of points: used to exhibit
concrete query results independently of geospatial behavior. -/
def nearAll : Option (Rat × Rat) → Option (Rat × Rat) → Nat → Bool :=
  fun _ _ _ => true

/-- JavaScript `Math.atan2(y, x)`: angle of the point `(x, y)` in `(-π, π]`,
defined piecewise from `arctan` exactly as the IEEE 754 / C library function
(signed zeros aside, which have no counterpart in `ℝ`). -/
noncomputable def atan2 (y x : ℝ) : ℝ :=
  if 0 < x then Real.arctan (y / x)
  else if x < 0 then
    if 0 ≤ y then Real.arctan (y / x) + Real.pi
    else Real.arctan (y / x) - Real.pi
  else
    if 0 < y then Real.pi / 2
    else if y < 0 then -(Real.pi / 2)
    else 0

/-- The intermediate value `a` of the haversine formula in `distanceTo`
(src/models/User.js:298-300): arguments are longitudes and latitudes in
degrees, converted to radians inside ( `φ1 = lat1*π/180` etc.). -/
noncomputable def haversineA (lon1 lat1 lon2 lat2 : ℝ) : ℝ :=
  Real.sin ((lat2 - lat1) * Real.pi / 180 / 2) *
      Real.sin ((lat2 - lat1) * Real.pi / 180 / 2) +
    Real.cos (lat1 * Real.pi / 180) * Real.cos (lat2 * Real.pi / 180) *
      Real.sin ((lon2 - lon1) * Real.pi / 180 / 2) *
      Real.sin ((lon2 - lon1) * Real.pi / 180 / 2)

/-- The full haversine distance of `distanceTo` (src/models/User.js:292-303):
`c = 2 * atan2(√a, √(1-a))`, result `Math.round(R * c)` meters with
`R = 6371000`.  JavaScript `Math.round` is round-half-up, Mathlib's `round`. -/
noncomputable def haversineMeters (lon1 lat1 lon2 lat2 : ℝ) : ℤ :=
  round ((6371000 : ℝ) *
    (2 * atan2 (Real.sqrt (haversineA lon1 lat1 lon2 lat2))
      (Real.sqrt (1 - haversineA lon1 lat1 lon2 lat2))))

/-- `userSchema.methods.distanceTo` (src/models/User.js:284-304): `null`
(modelled `none`) when either side's coordinate data is absent, otherwise the
rounded haversine distance between `[lon1, lat1]` and `[lon2, lat2]`. -/
noncomputable def distanceTo (u v : User) : Option ℤ :=
  match u.location, v.location with
  | some p, some q =>
      some (haversineMeters (p.1 : ℝ) (p.2 : ℝ) (q.1 : ℝ) (q.2 : ℝ))
  | _, _ => none

/-- Modelled from the spec: the repository has no mood-freshness code under
src/ (only the per-user `moodSystem.displaySettings.moodExpiryHours` setting,
default 24, in the schema at src/models/User.js:119).  Section 4.3 of the
spec defines `isFresh(moodTimestamp, expiryHours)`: fresh iff
`now - moodTimestamp <= expiryHours` converted to the same unit; timestamps
are JavaScript millisecond clocks, and one hour is 3600000 ms. -/
def isFresh (nowMs moodTimestampMs expiryHours : Int) : Bool :=
  decide (nowMs - moodTimestampMs ≤ expiryHours * 3600000)

/-- `delete obj[k]` on a plain JavaScript object serialized as a key-value
list: the binding for `k` is removed, all other bindings survive. -/
def deleteField {V : Type} : List (String × V) → String → List (String × V)
  | [], _ => []
  | p :: t, k => if p.1 = k then deleteField t k else p :: deleteField t k

/-- Property lookup on the serialized object. -/
def getField {V : Type} (o : List (String × V)) (k : String) : Option V :=
  match o with
  | [] => none
  | p :: t => if p.1 = k then some p.2 else getField t k

/-- `userSchema.methods.getPublicProfile` (src/models/User.js:314-327): the
`toObject()` serialization (the argument `o`, produced by the external
mongoose serializer) with the seven sensitive fields deleted, in source
order. -/
def getPublicProfile {V : Type} (o : List (String × V)) : List (String × V) :=
  deleteField
    (deleteField
      (deleteField
        (deleteField
          (deleteField
            (deleteField
              (deleteField o "password")
              "email")
            "refreshTokens")
          "passwordResetToken")
        "passwordResetExpires")
      "emailVerificationToken")
    "emailVerificationExpires"

/-- The seven fields `getPublicProfile` deletes (src/models/User.js:318-324). -/
def sensitiveFields : List String :=
  ["password", "email", "refreshTokens", "passwordResetToken",
   "passwordResetExpires", "emailVerificationToken",
   "emailVerificationExpires"]

/-- Query date 2026-10-12 (`getMonth() = 9` is October, 0-based). -/
def now2026 : Ymd := ⟨2026, 9, 12⟩

/-- An empty options bundle `{}`: every option defaulted from the requester. -/
def opts0 : FindOptions := ⟨none, none, none, none, none⟩

/-- A requester whose `interestedIn` list is empty: gender-incompatible with
everybody.  Fields: id 1, dob day 7954 (1991-10-12), gender `femme` /
interested in nobody, location `(0,0)`, default mood, active, not banned,
preferences radius 10000 and age range 18-35, lastSeen 0. -/
def reqNoInterest : User :=
  ⟨1, 7954, ⟨"femme", []⟩, some (0, 0), "bonne_humeur", true, false,
   ⟨10000, 18, 35⟩, 0⟩

/-- An active, unbanned candidate born 2001-10-12 (day 11607), inside the
18-35 birth-date window at `now2026`. -/
def candEligible : User :=
  ⟨2, 11607, ⟨"homme", ["femme"]⟩, some (0, 0), "zen", true, false,
   ⟨10000, 18, 35⟩, 5⟩

/-- A requester with no location set: absent coordinate data. -/
def reqNoLocation : User :=
  ⟨3, 7954, ⟨"femme", ["homme"]⟩, none, "bonne_humeur", true, false,
   ⟨10000, 18, 35⟩, 0⟩

/-- An eligible candidate for the no-location requester. -/
def candNullIsland : User :=
  ⟨4, 11607, ⟨"homme", ["femme"]⟩, some (0, 0), "zen", true, false,
   ⟨10000, 18, 35⟩, 7⟩

/-- A requester whose stored preferences resolve the age bounds to
`[25, 35]`. -/
def reqAge25to35 : User :=
  ⟨5, 7954, ⟨"femme", ["homme"]⟩, some (0, 0), "bonne_humeur", true, false,
   ⟨10000, 25, 35⟩, 0⟩

/-- A candidate born exactly 25 calendar years before `now2026`
(2001-10-12, day 11607): admitted by the birth-date window for `ageMin = 25`,
yet its `age` virtual at `now2026` evaluates to 24. -/
def candAge24 : User :=
  ⟨6, 11607, ⟨"homme", ["femme"]⟩, some (0, 0), "zen", true, false,
   ⟨10000, 18, 35⟩, 3⟩

/-- A requester mutually gender-compatible with `candMutual`. -/
def reqMutual : User :=
  ⟨7, 7954, ⟨"femme", ["homme"]⟩, some (0, 0), "bonne_humeur", true, false,
   ⟨10000, 18, 35⟩, 0⟩

/-- An eligible candidate mutually gender-compatible with `reqMutual`. -/
def candMutual : User :=
  ⟨8, 11607, ⟨"homme", ["femme"]⟩, some (0, 0), "zen", true, false,
   ⟨10000, 18, 35⟩, 2⟩

/-- A user at the default coordinates `[0, 0]`: present (valid) data. -/
def userAtOrigin : User :=
  ⟨9, 11607, ⟨"homme", ["femme"]⟩, some (0, 0), "zen", true, false,
   ⟨10000, 18, 35⟩, 0⟩

/-- A user whose coordinate data is absent. -/
def userNoCoords : User :=
  ⟨10, 11607, ⟨"homme", ["femme"]⟩, none, "zen", true, false,
   ⟨10000, 18, 35⟩, 0⟩

/-- Any member of the candidate list satisfies the compound storage query. -/
theorem matches_of_mem
    {near : Option (Rat × Rat) → Option (Rat × Rat) → Nat → Bool}
    {u : User} {opts : FindOptions} {store : List User} {now : Ymd} {c : User}
    (h : c ∈ findCompatibleUsers near u opts store now) :
    matchesQuery near (buildQuery u opts now) c = true := by
  unfold findCompatibleUsers at h
  have h1 := List.take_subset _ _ h
  rw [List.mem_insertionSort] at h1
  exact (List.mem_filter.mp h1).2

/-- Claim C1 counterexample: a requester with an empty `interestedIn` list is
gender-compatible with nobody, yet `findCompatibleUsers` returns an active,
unbanned, in-window candidate for it: no gender-compatibility post-filter is
applied to the returned sequence. -/
theorem claim1_counterexample :
    findCompatibleUsers nearAll reqNoInterest opts0 [candEligible] now2026 =
        [candEligible] ∧
    reqNoInterest.isGenderCompatibleWith candEligible = false :=
  ⟨rfl, rfl⟩

/-- Claim C1 (amended): `findCompatibleUsers` itself applies no
gender-compatibility predicate (neither inside the storage query nor as a
post-filter); gender compatibility holds exactly for the candidates that
additionally pass a caller-applied `isGenderCompatibleWith` post-filter over
the returned page. -/
theorem claim1_amended_post_filter
    (near : Option (Rat × Rat) → Option (Rat × Rat) → Nat → Bool)
    (u : User) (opts : FindOptions) (store : List User) (now : Ymd) (c : User)
    (h : c ∈ (findCompatibleUsers near u opts store now).filter
      (fun x => u.isGenderCompatibleWith x)) :
    u.isGenderCompatibleWith c = true :=
  (List.mem_filter.mp h).2

/-- Witness for the amended claim C1 at a concrete mutually compatible pair. -/
theorem claim1_amended_witness :
    reqMutual.isGenderCompatibleWith candMutual = true :=
  claim1_amended_post_filter nearAll reqMutual opts0 [candMutual] now2026
    candMutual
    (show candMutual ∈ [candMutual] from List.Mem.head _)

/-- Claim C2, evaluated at the failing input: for a requester with no
location set, `findCompatibleUsers` performs no location check and has no
error path at all — it hands the absent location to the storage collaborator
inside the `$near` clause and silently returns the resulting candidate list,
instead of failing with `InvalidQueryState`. -/
theorem claim2_no_location_silently_returns :
    findCompatibleUsers nearAll reqNoLocation opts0 [candNullIsland] now2026 =
      [candNullIsland] :=
  rfl

/-- Claim C3: every candidate returned by `findCompatibleUsers` has an id
distinct from the requester's, is active, and is not banned — for every
storage collaborator, requester, options, store content and query date. -/
theorem claim3_excludes_requester_banned_inactive
    (near : Option (Rat × Rat) → Option (Rat × Rat) → Nat → Bool)
    (u : User) (opts : FindOptions) (store : List User) (now : Ymd) (c : User)
    (h : c ∈ findCompatibleUsers near u opts store now) :
    c.id ≠ u.id ∧ c.isActive = true ∧ c.isBanned = false := by
  have hq := matches_of_mem h
  simp only [matchesQuery, buildQuery, Bool.and_eq_true, bne_iff_ne, ne_eq,
    Bool.not_eq_true', decide_eq_true_eq] at hq
  exact ⟨hq.1.1.1.1.1.1, hq.1.1.1.1.1.2, hq.1.1.1.1.2⟩

/-- Witness for claim C3 at a concrete store. -/
theorem claim3_witness :
    candEligible.id ≠ reqNoInterest.id ∧ candEligible.isActive = true ∧
      candEligible.isBanned = false :=
  claim3_excludes_requester_banned_inactive nearAll reqNoInterest opts0
    [candEligible] now2026 candEligible
    (show candEligible ∈ [candEligible] from List.Mem.head _)

/-- Claim C4 counterexample: with resolved bounds `ageMin = 25 ≤ ageMax = 35`,
the candidate born 2001-10-12 is returned at query date 2026-10-12 (its birth
date equals the calendar upper bound `new Date(2026-25, 9, 12)`), but its
`age` virtual — `floor((now - dob) / 365.25 days)` — evaluates to 24, outside
`[25, 35]`: the calendar birth-date window does not coincide with the
365.25-day-derived age. -/
theorem claim4_counterexample :
    candAge24 ∈ findCompatibleUsers nearAll reqAge25to35 opts0 [candAge24]
        now2026 ∧
    resolveAgeMin reqAge25to35 opts0 ≤ resolveAgeMax reqAge25to35 opts0 ∧
    userAge candAge24
        (dateGetTime (daysFromCivil now2026.year now2026.month now2026.day)) <
      (resolveAgeMin reqAge25to35 opts0 : Int) := by
  refine ⟨?_, by decide, by decide⟩
  show candAge24 ∈ [candAge24]
  exact List.Mem.head _

/-- Claim C4 (amended): every candidate returned by `findCompatibleUsers` has
its `dateOfBirth` inside the calendar window
`[new Date(now.year - ageMax, now.month, now.day),
  new Date(now.year - ageMin, now.month, now.day)]`
for the resolved bounds; the 365.25-day-derived age may leave `[ageMin,
ageMax]` by one year at the window edges. -/
theorem claim4_amended_birthdate_window
    (near : Option (Rat × Rat) → Option (Rat × Rat) → Nat → Bool)
    (u : User) (opts : FindOptions) (store : List User) (now : Ymd) (c : User)
    (h : c ∈ findCompatibleUsers near u opts store now) :
    daysFromCivil (now.year - (resolveAgeMax u opts : Int)) now.month now.day ≤
        c.dateOfBirth ∧
      c.dateOfBirth ≤
        daysFromCivil (now.year - (resolveAgeMin u opts : Int)) now.month
          now.day := by
  have hq := matches_of_mem h
  simp only [matchesQuery, buildQuery, Bool.and_eq_true, bne_iff_ne, ne_eq,
    Bool.not_eq_true', decide_eq_true_eq] at hq
  exact ⟨hq.1.1.2, hq.1.2⟩

/-- Witness for the amended claim C4 at a concrete store. -/
theorem claim4_amended_witness :
    daysFromCivil (now2026.year - (resolveAgeMax reqAge25to35 opts0 : Int))
        now2026.month now2026.day ≤ candAge24.dateOfBirth ∧
      candAge24.dateOfBirth ≤
        daysFromCivil (now2026.year - (resolveAgeMin reqAge25to35 opts0 : Int))
          now2026.month now2026.day :=
  claim4_amended_birthdate_window nearAll reqAge25to35 opts0 [candAge24]
    now2026 candAge24
    (show candAge24 ∈ [candAge24] from List.Mem.head _)

/-- Claim C5: gender compatibility is symmetric — swapping the two users
swaps the two conjuncts of `isGenderCompatibleWith`, so the boolean result is
unchanged. -/
theorem claim5_gender_compat_symm (a b : User) :
    a.isGenderCompatibleWith b = b.isGenderCompatibleWith a := by
  simp only [User.isGenderCompatibleWith]
  exact Bool.and_comm _ _

/-- Claim C6: an empty `interestedIn` list — and more generally one containing
neither the other user's declared gender nor the `"tous"` wildcard — makes
`isGenderCompatibleWith` return `false`: there is no implicit wildcard. -/
theorem claim6_no_implicit_wildcard (a b : User)
    (h : a.genderIdentity.interestedIn = [] ∨
      (a.genderIdentity.interestedIn.contains b.genderIdentity.myGender =
          false ∧
        a.genderIdentity.interestedIn.contains "tous" = false)) :
    a.isGenderCompatibleWith b = false := by
  simp only [User.isGenderCompatibleWith]
  rcases h with h | ⟨h1, h2⟩
  · rw [h]
    rfl
  · rw [h1, h2]
    rfl

/-- Witness for claim C6 at the concrete requester with empty interests. -/
theorem claim6_witness :
    reqNoInterest.isGenderCompatibleWith candEligible = false :=
  claim6_no_implicit_wildcard reqNoInterest candEligible (Or.inl rfl)

/-- `haversineA` is symmetric in its two points. -/
theorem haversineA_symm (lon1 lat1 lon2 lat2 : ℝ) :
    haversineA lon1 lat1 lon2 lat2 = haversineA lon2 lat2 lon1 lat1 := by
  unfold haversineA
  have h1 : (lat2 - lat1) * Real.pi / 180 / 2 =
      -((lat1 - lat2) * Real.pi / 180 / 2) := by ring
  have h2 : (lon2 - lon1) * Real.pi / 180 / 2 =
      -((lon1 - lon2) * Real.pi / 180 / 2) := by ring
  rw [h1, h2, Real.sin_neg, Real.sin_neg]
  ring

/-- `haversineA` vanishes on the diagonal. -/
theorem haversineA_self (lon lat : ℝ) : haversineA lon lat lon lat = 0 := by
  unfold haversineA
  simp [sub_self, zero_mul, zero_div, Real.sin_zero, mul_zero, add_zero]

/-- `atan2` of the positive x-axis direction. -/
theorem atan2_zero_one : atan2 0 1 = 0 := by
  unfold atan2
  rw [if_pos one_pos]
  simp [Real.arctan_zero]

/-- `atan2 y x` is non-negative whenever `y ≥ 0`. -/
theorem atan2_nonneg {y : ℝ} (x : ℝ) (hy : 0 ≤ y) : 0 ≤ atan2 y x := by
  unfold atan2
  split_ifs with h1 h2 h3 h4
  · have hmono := Real.arctan_strictMono.monotone
      (div_nonneg hy (le_of_lt h1))
    rwa [Real.arctan_zero] at hmono
  · have hlo := Real.neg_pi_div_two_lt_arctan (y / x)
    have hπ := Real.pi_pos
    linarith
  · have hπ := Real.pi_pos
    linarith
  · linarith
  · exact le_refl 0

/-- The rounded haversine distance is symmetric. -/
theorem haversineMeters_symm (lon1 lat1 lon2 lat2 : ℝ) :
    haversineMeters lon1 lat1 lon2 lat2 = haversineMeters lon2 lat2 lon1 lat1 := by
  unfold haversineMeters
  rw [haversineA_symm]

/-- The rounded haversine distance is non-negative. -/
theorem haversineMeters_nonneg (lon1 lat1 lon2 lat2 : ℝ) :
    0 ≤ haversineMeters lon1 lat1 lon2 lat2 := by
  unfold haversineMeters
  have hc : 0 ≤ (6371000 : ℝ) *
      (2 * atan2 (Real.sqrt (haversineA lon1 lat1 lon2 lat2))
        (Real.sqrt (1 - haversineA lon1 lat1 lon2 lat2))) := by
    have h := atan2_nonneg
      (Real.sqrt (1 - haversineA lon1 lat1 lon2 lat2))
      (Real.sqrt_nonneg (haversineA lon1 lat1 lon2 lat2))
    have h2 : (0:ℝ) ≤ 2 := by norm_num
    have h6 : (0:ℝ) ≤ 6371000 := by norm_num
    exact mul_nonneg h6 (mul_nonneg h2 h)
  rw [round_eq]
  refine Int.le_floor.mpr ?_
  push_cast
  linarith

/-- The rounded haversine distance of a point to itself is zero. -/
theorem haversineMeters_self (lon lat : ℝ) :
    haversineMeters lon lat lon lat = 0 := by
  unfold haversineMeters
  rw [haversineA_self, Real.sqrt_zero, sub_zero, Real.sqrt_one, atan2_zero_one]
  simp [round_zero]

/-- Claim C7: `distanceTo` is symmetric (also through the absent cases), every
defined distance is non-negative, and the distance of a located user to
itself is zero. -/
theorem claim7_distance_symm_nonneg_self (u v : User) :
    distanceTo u v = distanceTo v u ∧
    (∀ d : ℤ, distanceTo u v = some d → 0 ≤ d) ∧
    (u.location.isSome = true → distanceTo u u = some 0) := by
  refine ⟨?_, ?_, ?_⟩
  · cases hu : u.location with
    | none => cases hv : v.location <;> simp [distanceTo, hu, hv]
    | some p =>
      cases hv : v.location with
      | none => simp [distanceTo, hu, hv]
      | some q =>
        simp only [distanceTo, hu, hv, Option.some.injEq]
        exact haversineMeters_symm _ _ _ _
  · intro d hd
    cases hu : u.location with
    | none => simp [distanceTo, hu] at hd
    | some p =>
      cases hv : v.location with
      | none => simp [distanceTo, hu, hv] at hd
      | some q =>
        simp only [distanceTo, hu, hv, Option.some.injEq] at hd
        rw [← hd]
        exact haversineMeters_nonneg _ _ _ _
  · intro h
    obtain ⟨p, hp⟩ := Option.isSome_iff_exists.mp h
    simp [distanceTo, hp, haversineMeters_self]

/-- Witness for claim C7 at the user sitting at the origin. -/
theorem claim7_witness : (0:ℤ) ≤ 0 ∧ distanceTo userAtOrigin userAtOrigin = some 0 :=
  have h0 : distanceTo userAtOrigin userAtOrigin = some 0 :=
    (claim7_distance_symm_nonneg_self userAtOrigin userAtOrigin).2.2 rfl
  ⟨(claim7_distance_symm_nonneg_self userAtOrigin userAtOrigin).2.1 0 h0, h0⟩

/-- Claim C8: `distanceTo` returns the defined sentinel `none` (never a crash)
exactly when either side's coordinate data is absent, while any present
coordinates — including the default `[0, 0]` — yield a defined distance. -/
theorem claim8_absent_sentinel (u v : User) :
    ((u.location = none ∨ v.location = none) → distanceTo u v = none) ∧
    (u.location.isSome = true → v.location.isSome = true →
      (distanceTo u v).isSome = true) := by
  constructor
  · rintro (h | h)
    · cases hv : v.location <;> simp [distanceTo, h, hv]
    · cases hu : u.location <;> simp [distanceTo, h, hu]
  · intro hu hv
    obtain ⟨p, hp⟩ := Option.isSome_iff_exists.mp hu
    obtain ⟨q, hq⟩ := Option.isSome_iff_exists.mp hv
    simp [distanceTo, hp, hq]

/-- Witness for claim C8: absent coordinates give `none`; the present default
`[0, 0]` coordinates give a defined result. -/
theorem claim8_witness :
    distanceTo userNoCoords userAtOrigin = none ∧
    (distanceTo userAtOrigin userAtOrigin).isSome = true :=
  ⟨(claim8_absent_sentinel userNoCoords userAtOrigin).1 (Or.inl rfl),
   (claim8_absent_sentinel userAtOrigin userAtOrigin).2 rfl rfl⟩

/-- Claim C9 (spec-modelled): a mood entry is fresh iff
`now - moodTimestamp <= expiryHours` converted to milliseconds; the entry
exactly at the expiry boundary is fresh, and one second (1000 ms) past the
boundary is not. -/
theorem claim9_mood_freshness (nowMs ts eh : Int) :
    (isFresh nowMs ts eh = true ↔ nowMs - ts ≤ eh * 3600000) ∧
    isFresh (ts + eh * 3600000) ts eh = true ∧
    isFresh (ts + eh * 3600000 + 1000) ts eh = false := by
  refine ⟨?_, ?_, ?_⟩
  · simp [isFresh]
  · simp only [isFresh, decide_eq_true_eq]
    omega
  · simp only [isFresh, decide_eq_false_iff_not]
    omega

/-- Witness for claim C9 with the default 24-hour expiry, exactly one day
after the mood timestamp. -/
theorem claim9_witness : isFresh 86400000 0 24 = true :=
  (claim9_mood_freshness 86400000 0 24).1.mpr (by decide)

/-- Looking a key up after deleting a key: `none` for the deleted key itself,
unchanged for every other key. -/
theorem getField_deleteField {V : Type} (o : List (String × V))
    (k kd : String) :
    getField (deleteField o kd) k = if k = kd then none else getField o k := by
  induction o with
  | nil => simp [deleteField, getField, ite_self]
  | cons p t ih =>
    by_cases hpd : p.1 = kd
    · simp only [deleteField, if_pos hpd, ih, getField]
      by_cases hkd : k = kd
      · simp [hkd]
      · have hpk : ¬ p.1 = k := by
          rw [hpd]
          exact fun hh => hkd hh.symm
        simp [hkd, if_neg hpk, getField]
    · simp only [deleteField, if_neg hpd, getField]
      by_cases hpk : p.1 = k
      · have hkd : ¬ k = kd := fun hh => hpd (hpk.trans hh)
        simp [getField, hpk, hkd]
      · simp [getField, hpk, ih]

/-- Claim C10: `getPublicProfile` removes exactly the seven sensitive fields
`password`, `email`, `refreshTokens`, `passwordResetToken`,
`passwordResetExpires`, `emailVerificationToken`,
`emailVerificationExpires` from the serialized document, and leaves the value
of every other field unchanged. -/
theorem claim10_public_profile {V : Type} (o : List (String × V))
    (k : String) :
    (k ∈ sensitiveFields → getField (getPublicProfile o) k = none) ∧
    (k ∉ sensitiveFields → getField (getPublicProfile o) k = getField o k) := by
  constructor
  · intro hk
    simp only [sensitiveFields, List.mem_cons, List.not_mem_nil, or_false]
      at hk
    simp only [getPublicProfile, getField_deleteField]
    rcases hk with rfl | rfl | rfl | rfl | rfl | rfl | rfl <;> simp
  · intro hk
    simp only [sensitiveFields, List.mem_cons, List.not_mem_nil, or_false,
      not_or] at hk
    obtain ⟨n1, n2, n3, n4, n5, n6, n7⟩ := hk
    simp only [getPublicProfile, getField_deleteField, if_neg n1, if_neg n2,
      if_neg n3, if_neg n4, if_neg n5, if_neg n6, if_neg n7]

/-- Witness for claim C10 on a concrete two-field document. -/
theorem claim10_witness :
    getField (getPublicProfile [("password", (1 : Int)), ("firstName", (2 : Int))])
        "password" = none ∧
    getField (getPublicProfile [("password", (1 : Int)), ("firstName", (2 : Int))])
        "firstName" =
      getField [("password", (1 : Int)), ("firstName", (2 : Int))] "firstName" :=
  ⟨(claim10_public_profile _ "password").1 (by decide),
   (claim10_public_profile _ "firstName").2 (by decide)⟩

end LoveConnect
